import Mathlib

/-!
Verification development for the ONNX helper module (`onnx/helper.py`).

The file shallowly embeds the helper's data model and operations:

* the release/IR version table and the `(domain, version) → ir_version`
  lookup (`create_op_set_id_version_map`, `find_min_ir_version_for`),
* the attribute codec (`make_attribute`, `get_attribute_value`),
* the tensor codec (`make_tensor`, `split_complex_to_pairs`),
* model assembly (`make_model`, `make_model_gen_version`),
* the type/shape builders (`make_tensor_value_info`,
  `make_sparse_tensor_value_info`),
* the pretty printer (`printable_attribute`, `printable_node`,
  `printable_graph` and their leaf helpers).

Modelling conventions: Python `float` values are carried as `Rat` (the
codec only stores and reloads them; IEEE rounding is not what any theorem
below is about), Python `int` as `Int`, Python `bytes` as `List Nat`,
Python text as `String` (UTF-8 encoding is computed exactly).  Fallible
operations return `Except`; each `raise` of the source becomes an error
constructor named after the specification's error kinds.  Protobuf
presence of proto2 optional scalar fields is an `Option`; reading an
unset field yields the proto default via `Option.getD`.
-/

/-! ## Enumerations and error kinds -/

/-- The `AttributeProto.AttributeType` enumeration of the wire schema. -/
inductive AttrType where
  | UNDEFINED | FLOAT | INT | STRING | TENSOR | GRAPH | SPARSE_TENSOR
  | FLOATS | INTS | STRINGS | TENSORS | GRAPHS | SPARSE_TENSORS
deriving DecidableEq, Repr

/-- The defined element kinds of `TensorProto.DataType` (the schema also has
an `UNDEFINED = 0` code, which every helper path rejects via a mapping-table
lookup failure; the development models only the defined kinds). -/
inductive DataType where
  | FLOAT | UINT8 | INT8 | UINT16 | INT16 | INT32 | INT64 | STRING
  | BOOL | FLOAT16 | DOUBLE | UINT32 | UINT64 | COMPLEX64 | COMPLEX128
  | BFLOAT16
deriving DecidableEq, Repr, Inhabited

/-- Typed storage fields of `TensorProto` (targets of
`STORAGE_TENSOR_TYPE_TO_FIELD`). -/
inductive StorageField where
  | floatData | int32Data | stringData | int64Data | doubleData | uint64Data
deriving DecidableEq, Repr

/-- Error kinds of the attribute codec (`ValueError`/`TypeError` raises of
`make_attribute` and `get_attribute_value`). -/
inductive AttrError where
  | ambiguousAttributeType
  | unsupportedAttributeType
  | unsupportedAttributeKind
deriving DecidableEq, Repr

/-- Error kind of `find_min_ir_version_for` (`Unsupported opset-version.`). -/
inductive VersionError where
  | unsupportedOpset
deriving DecidableEq, Repr

/-- Error kinds of `make_tensor`: the `assert not raw` for STRING tensors and
the element/byte count check. -/
inductive TensorError where
  | invalidRawStringTensor
  | sizeMismatch
deriving DecidableEq, Repr

/-- Error kind of the value-info builders (`Invalid shape_denotation`). -/
inductive ValueInfoError where
  | denotationLengthMismatch
deriving DecidableEq, Repr

/-! ## Wire records (protobuf messages populated by the helper) -/

/-- `TensorProto`: name, element kind, dims, one typed data field per storage
category, and the raw byte buffer.  `data_type` defaults to `FLOAT` here
(the schema default is the `UNDEFINED` code, which the development does not
model; no claim depends on the default). -/
structure TensorProto where
  name : String := ""
  data_type : DataType := .FLOAT
  dims : List Nat := []
  float_data : List Rat := []
  int32_data : List Int := []
  string_data : List (List Nat) := []
  int64_data : List Int := []
  double_data : List Rat := []
  uint64_data : List Int := []
  raw_data : Option (List Nat) := none
deriving DecidableEq, Repr, Inhabited

/-- `SparseTensorProto`: a values tensor, an indices tensor and the dense
shape. -/
structure SparseTensorProto where
  values : TensorProto := {}
  indices : TensorProto := {}
  dims : List Nat := []
deriving DecidableEq, Repr, Inhabited

/-- One `TensorShapeProto.Dimension`: the `dim_value`/`dim_param` oneof
(`none` = unset) and the per-dimension denotation string. -/
structure Dimension where
  value : Option (Int ⊕ String) := none
  denotation : String := ""
deriving DecidableEq, Repr, Inhabited

/-- `TensorShapeProto`: an ordered dimension list.  A `TensorTypeProto`
carries `Option TensorShapeProto`, so "shape field never touched" (`none`)
stays distinct from "shape present with zero dims" (`some` of `[]`). -/
structure TensorShapeProto where
  dim : List Dimension := []
deriving DecidableEq, Repr, Inhabited

/-- `TypeProto.Tensor` / `TypeProto.SparseTensor`: element type code and an
optional shape. -/
structure TensorTypeProto where
  elem_type : Nat := 0
  shape : Option TensorShapeProto := none
deriving DecidableEq, Repr, Inhabited

/-- The `TypeProto.value` oneof.  The schema's sequence case recursively
holds a whole `TypeProto` element type; the helper only ever writes a
tensor type there, so the model keeps just that (no claim below touches
sequence types). -/
inductive TypeValue where
  | tensorType (t : TensorTypeProto)
  | sparseTensorType (t : TensorTypeProto)
  | sequenceType (elem : Option TensorTypeProto)
deriving DecidableEq, Repr

/-- `TypeProto`: an optional oneof value. -/
structure TypeProto where
  value : Option TypeValue := none
deriving DecidableEq, Repr, Inhabited

/-- `ValueInfoProto`: name, doc string and type. -/
structure ValueInfoProto where
  name : String := ""
  doc_string : String := ""
  type : TypeProto := {}
deriving DecidableEq, Repr, Inhabited

mutual
/-- `AttributeProto`.  Field order of the constructor:
name, doc_string, type, f, i, s, t, sparse_tensor, g,
floats, ints, strings, tensors, sparse_tensors, graphs. -/
inductive AttributeProto where
  | mk (name doc_string : String) (type : AttrType)
      (f : Option Rat) (i : Option Int) (s : Option (List Nat))
      (t : Option TensorProto) (sparse_tensor : Option SparseTensorProto)
      (g : Option GraphProto)
      (floats : List Rat) (ints : List Int) (strings : List (List Nat))
      (tensors : List TensorProto) (sparse_tensors : List SparseTensorProto)
      (graphs : List GraphProto)

/-- `NodeProto`.  Field order: op_type, input, output, name, doc_string,
domain, attrs (the source's `attribute` field; that word is a Lean
keyword). -/
inductive NodeProto where
  | mk (op_type : String) (input output : List String)
      (name doc_string domain : String) (attrs : List AttributeProto)

/-- `GraphProto`.  Field order: name, node, input, output, initializer,
sparse_initializer, value_info, doc_string. -/
inductive GraphProto where
  | mk (name : String) (node : List NodeProto)
      (input output : List ValueInfoProto)
      (initializer : List TensorProto)
      (sparse_initializer : List SparseTensorProto)
      (value_info : List ValueInfoProto) (doc_string : String)
end

def AttributeProto.name : AttributeProto → String
  | .mk x _ _ _ _ _ _ _ _ _ _ _ _ _ _ => x

def AttributeProto.doc_string : AttributeProto → String
  | .mk _ x _ _ _ _ _ _ _ _ _ _ _ _ _ => x

def AttributeProto.type : AttributeProto → AttrType
  | .mk _ _ x _ _ _ _ _ _ _ _ _ _ _ _ => x

def AttributeProto.f : AttributeProto → Option Rat
  | .mk _ _ _ x _ _ _ _ _ _ _ _ _ _ _ => x

def AttributeProto.i : AttributeProto → Option Int
  | .mk _ _ _ _ x _ _ _ _ _ _ _ _ _ _ => x

def AttributeProto.s : AttributeProto → Option (List Nat)
  | .mk _ _ _ _ _ x _ _ _ _ _ _ _ _ _ => x

def AttributeProto.t : AttributeProto → Option TensorProto
  | .mk _ _ _ _ _ _ x _ _ _ _ _ _ _ _ => x

def AttributeProto.sparse_tensor : AttributeProto → Option SparseTensorProto
  | .mk _ _ _ _ _ _ _ x _ _ _ _ _ _ _ => x

def AttributeProto.g : AttributeProto → Option GraphProto
  | .mk _ _ _ _ _ _ _ _ x _ _ _ _ _ _ => x

def AttributeProto.floats : AttributeProto → List Rat
  | .mk _ _ _ _ _ _ _ _ _ x _ _ _ _ _ => x

def AttributeProto.ints : AttributeProto → List Int
  | .mk _ _ _ _ _ _ _ _ _ _ x _ _ _ _ => x

def AttributeProto.strings : AttributeProto → List (List Nat)
  | .mk _ _ _ _ _ _ _ _ _ _ _ x _ _ _ => x

def AttributeProto.tensors : AttributeProto → List TensorProto
  | .mk _ _ _ _ _ _ _ _ _ _ _ _ x _ _ => x

def AttributeProto.sparse_tensors : AttributeProto → List SparseTensorProto
  | .mk _ _ _ _ _ _ _ _ _ _ _ _ _ x _ => x

def AttributeProto.graphs : AttributeProto → List GraphProto
  | .mk _ _ _ _ _ _ _ _ _ _ _ _ _ _ x => x

def NodeProto.op_type : NodeProto → String
  | .mk x _ _ _ _ _ _ => x

def NodeProto.input : NodeProto → List String
  | .mk _ x _ _ _ _ _ => x

def NodeProto.output : NodeProto → List String
  | .mk _ _ x _ _ _ _ => x

def NodeProto.name : NodeProto → String
  | .mk _ _ _ x _ _ _ => x

def NodeProto.doc_string : NodeProto → String
  | .mk _ _ _ _ x _ _ => x

def NodeProto.domain : NodeProto → String
  | .mk _ _ _ _ _ x _ => x

def NodeProto.attrs : NodeProto → List AttributeProto
  | .mk _ _ _ _ _ _ x => x

def GraphProto.name : GraphProto → String
  | .mk x _ _ _ _ _ _ _ => x

def GraphProto.node : GraphProto → List NodeProto
  | .mk _ x _ _ _ _ _ _ => x

def GraphProto.input : GraphProto → List ValueInfoProto
  | .mk _ _ x _ _ _ _ _ => x

def GraphProto.output : GraphProto → List ValueInfoProto
  | .mk _ _ _ x _ _ _ _ => x

def GraphProto.initializer : GraphProto → List TensorProto
  | .mk _ _ _ _ x _ _ _ => x

def GraphProto.sparse_initializer : GraphProto → List SparseTensorProto
  | .mk _ _ _ _ _ x _ _ => x

def GraphProto.value_info : GraphProto → List ValueInfoProto
  | .mk _ _ _ _ _ _ x _ => x

def GraphProto.doc_string : GraphProto → String
  | .mk _ _ _ _ _ _ _ x => x

instance : Inhabited GraphProto := ⟨.mk "" [] [] [] [] [] [] ""⟩

instance : Inhabited NodeProto := ⟨.mk "" [] [] "" "" "" []⟩

instance : Inhabited AttributeProto :=
  ⟨.mk "" "" .UNDEFINED none none none none none none [] [] [] [] [] []⟩

/-- `OperatorSetIdProto`: a domain name and an opset version. -/
structure OperatorSetIdProto where
  domain : String := ""
  version : Int := 0
deriving DecidableEq, Repr, Inhabited

/-! ## Version table (`VERSION_TABLE`, `create_op_set_id_version_map`,
`find_min_ir_version_for`) -/

/-- One row of `VERSION_TABLE`: release version, IR version, and the trailing
per-domain opset versions (`ai.onnx`, `ai.onnx.ml`, optionally
`ai.onnx.training`, by position). -/
structure VersionRow where
  release : String
  ir : Nat
  versions : List Int
deriving DecidableEq, Repr

/-- The released-versions table of `helper.py`. -/
def VERSION_TABLE : List VersionRow :=
  [⟨"1.0", 3, [1, 1]⟩,
   ⟨"1.1", 3, [5, 1]⟩,
   ⟨"1.1.2", 3, [6, 1]⟩,
   ⟨"1.2", 3, [7, 1]⟩,
   ⟨"1.3", 3, [8, 1]⟩,
   ⟨"1.4.1", 4, [9, 1]⟩,
   ⟨"1.5.0", 5, [10, 1]⟩,
   ⟨"1.6.0", 6, [11, 2]⟩,
   ⟨"1.7.0", 7, [12, 2, 1]⟩,
   ⟨"1.8.0", 7, [13, 2, 1]⟩,
   ⟨"1.8.1", 7, [13, 2, 1]⟩,
   ⟨"1.9.0", 7, [14, 2, 1]⟩]

/-- The fixed positional domain names zipped against a row's trailing
versions by `process`. -/
def domainNames : List String := ["ai.onnx", "ai.onnx.ml", "ai.onnx.training"]

/-- First-match association lookup, the model of a Python `dict` probe
(`pair in result` / `result[pair]`). -/
def lookupPair : List ((String × Int) × Nat) → (String × Int) → Option Nat
  | [], _ => none
  | (k, v) :: rest, key => if key = k then some v else lookupPair rest key

/-- The `(domain, version)` pairs one table row contributes:
`zip(['ai.onnx', 'ai.onnx.ml', 'ai.onnx.training'], args)`. -/
def rowPairs (row : VersionRow) : List (String × Int) :=
  domainNames.zip row.versions

/-- The inner `process` of `create_op_set_id_version_map`: insert each of the
row's pairs unless already present (first write wins). -/
def processRow (result : List ((String × Int) × Nat)) (row : VersionRow) :
    List ((String × Int) × Nat) :=
  (rowPairs row).foldl
    (fun res pair =>
      if (lookupPair res pair).isSome then res else res ++ [(pair, row.ir)])
    result

/-- `create_op_set_id_version_map`: fold `process` over the table rows in
file order. -/
def create_op_set_id_version_map (table : List VersionRow) :
    List ((String × Int) × Nat) :=
  table.foldl processRow []

def OP_SET_ID_VERSION_MAP : List ((String × Int) × Nat) :=
  create_op_set_id_version_map VERSION_TABLE

/-- The key an opset id is looked up under: an empty (falsy) domain defaults
to `ai.onnx`. -/
def opsetKey (x : OperatorSetIdProto) : String × Int :=
  (if x.domain = "" then "ai.onnx" else x.domain, x.version)

/-- The inner `find_min` of `find_min_ir_version_for`. -/
def find_min (domain : String) (version : Int) : Except VersionError Nat :=
  match lookupPair OP_SET_ID_VERSION_MAP
      (if domain = "" then "ai.onnx" else domain, version) with
  | some ir => .ok ir
  | none => .error .unsupportedOpset

/-- Python `max` over a non-empty list (`0` for the empty list, which the
caller never passes). -/
def listMax : List Nat → Nat
  | [] => 0
  | x :: xs => xs.foldl max x

/-- `find_min_ir_version_for`: `3` for an empty opset-id list, otherwise the
maximum of the per-id lookups, failing on the first unknown pair. -/
def find_min_ir_version_for (opsetidlist : List OperatorSetIdProto) :
    Except VersionError Nat :=
  if opsetidlist ≠ [] then do
    let vs ← opsetidlist.mapM (fun x => find_min x.domain x.version)
    pure (listMax vs)
  else pure 3

/-! ## Model assembly (`make_model`, `make_model_gen_version`) -/

/-- Modelled from the spec: the fixed current IR-version constant the wire
layer exports (`IR_VERSION`, imported by `helper.py` from outside this
module); the table's latest release row records the same value. -/
def IR_VERSION : Nat := 7

/-- Modelled from the spec: the currently supported default-domain
operator-set version supplied by the opset registry collaborator
(`defs.onnx_opset_version()`, defined outside this module); the table's
latest release row records the same value. -/
def onnx_opset_version : Int := 14

/-- `ModelProto`, restricted to the fields the claims below read: IR
version, graph and opset imports. -/
structure ModelProto where
  ir_version : Nat := 0
  graph : Option GraphProto := none
  opset_import : List OperatorSetIdProto := []

/-- The `**kwargs` of `make_model`, restricted to the two keys the helper
itself inspects (`opset_imports`, popped before the generic loop, and
`ir_version`, the one generically-assigned field any claim reads). -/
structure ModelKwargs where
  ir_version : Option Nat := none
  opset_imports : Option (List OperatorSetIdProto) := none

/-- `make_model`: start from the fixed IR version, copy the graph, take the
supplied opset imports verbatim or synthesize the single default import,
then apply the generic field assignments (here: an `ir_version`
override). -/
def make_model (graph : GraphProto) (kwargs : ModelKwargs) : ModelProto :=
  let model : ModelProto :=
    { ir_version := IR_VERSION
      graph := some graph
      opset_import :=
        match kwargs.opset_imports with
        | some imports => imports
        | none => [{ domain := "", version := onnx_opset_version }] }
  match kwargs.ir_version with
  | some v => { model with ir_version := v }
  | none => model

/-- `make_model_gen_version`: when no explicit `ir_version` is supplied,
compute one with `find_min_ir_version_for` over the `opset_imports`
keyword as given (the empty list when the keyword is absent), then
delegate to `make_model`. -/
def make_model_gen_version (graph : GraphProto) (kwargs : ModelKwargs) :
    Except VersionError ModelProto :=
  match kwargs.ir_version with
  | some _ => .ok (make_model graph kwargs)
  | none => do
      let imports := kwargs.opset_imports.getD []
      let ir ← find_min_ir_version_for imports
      .ok (make_model graph { kwargs with ir_version := some ir })

/-! ## Host values and the attribute codec (`make_attribute`,
`get_attribute_value`) -/

/-- The dynamically-typed Python host values `make_attribute` dispatches on:
float and int scalars, booleans (integral in Python's numeric tower), text,
bytes, the three wire records, iterables (lists), and `None` as the
representative non-iterable value matching no case. -/
inductive PyVal where
  | float (x : Rat)
  | int (n : Int)
  | bool (b : Bool)
  | str (s : String)
  | bytes (b : List Nat)
  | tensor (t : TensorProto)
  | sparse (sp : SparseTensorProto)
  | graph (g : GraphProto)
  | list (xs : List PyVal)
  | none_

/-- `isinstance(value, float)`. -/
def isFloatInstance : PyVal → Bool
  | .float _ => true
  | _ => false

/-- `isinstance(value, numbers.Integral)`: Python ints and bools. -/
def isIntegral : PyVal → Bool
  | .int _ => true
  | .bool _ => true
  | _ => false

/-- `isinstance(value, numbers.Real)`: floats, ints and bools. -/
def isRealNumber : PyVal → Bool
  | .float _ => true
  | .int _ => true
  | .bool _ => true
  | _ => false

def isTensorInstance : PyVal → Bool
  | .tensor _ => true
  | _ => false

def isSparseInstance : PyVal → Bool
  | .sparse _ => true
  | _ => false

def isGraphInstance : PyVal → Bool
  | .graph _ => true
  | _ => false

/-- `isinstance(value, collections.Iterable)`: lists, text and bytes are the
iterable host values of this model. -/
def isIterable : PyVal → Bool
  | .list _ => true
  | .str _ => true
  | .bytes _ => true
  | _ => false

/-- The UTF-8 encoding of a text value, as a byte list. -/
def utf8Bytes (s : String) : List Nat :=
  s.toUTF8.data.toList.map (fun b => b.toNat)

/-- `_to_bytes_or_false`: bytes pass through, text is UTF-8 encoded, anything
else returns `False` (here `none`). -/
def to_bytes_or_false : PyVal → Option (List Nat)
  | .bytes b => some b
  | .str s => some (utf8Bytes s)
  | _ => none

/-- `int(v)` for an integral host value (the only callers pass integrals). -/
def pyInt : PyVal → Int
  | .int n => n
  | .bool b => if b then 1 else 0
  | _ => 0

/-- `float(v)` for a real-number host value (the only callers pass reals). -/
def pyFloat : PyVal → Rat
  | .float x => x
  | .int n => n
  | .bool b => if b then 1 else 0
  | _ => 0

/-- Iterating a host value: list elements; text iterates as one-character
strings, bytes as ints (both are caught by the string case before the
iterable cases ever see them). -/
def pyElems : PyVal → List PyVal
  | .list xs => xs
  | .str s => s.data.map (fun c => .str (String.mk [c]))
  | .bytes b => b.map (fun n => .int (n : Int))
  | _ => []

def asTensor : PyVal → Option TensorProto
  | .tensor t => some t
  | _ => none

def asSparse : PyVal → Option SparseTensorProto
  | .sparse sp => some sp
  | _ => none

def asGraph : PyVal → Option GraphProto
  | .graph g => some g
  | _ => none

/-- `make_attribute`: encode a host value into an `AttributeProto`,
dispatching in the source's order: float, integral, text/bytes, the three
record types, then the iterable cases, else the two failures.
Constructor field order: name, doc_string, type, f, i, s, t, sparse_tensor,
g, floats, ints, strings, tensors, sparse_tensors, graphs. -/
def make_attribute (key : String) (value : PyVal) (doc : String) :
    Except AttrError AttributeProto :=
  if isFloatInstance value then
    .ok (.mk key doc .FLOAT (some (pyFloat value)) none none none none none
      [] [] [] [] [] [])
  else if isIntegral value then
    .ok (.mk key doc .INT none (some (pyInt value)) none none none none
      [] [] [] [] [] [])
  else
    match to_bytes_or_false value with
    | some bs =>
        .ok (.mk key doc .STRING none none (some bs) none none none
          [] [] [] [] [] [])
    | none =>
        if isTensorInstance value then
          .ok (.mk key doc .TENSOR none none none (asTensor value) none none
            [] [] [] [] [] [])
        else if isSparseInstance value then
          .ok (.mk key doc .SPARSE_TENSOR none none none none (asSparse value)
            none [] [] [] [] [] [])
        else if isGraphInstance value then
          .ok (.mk key doc .GRAPH none none none none none (asGraph value)
            [] [] [] [] [] [])
        else if isIterable value then
          let vs := pyElems value
          if vs.all isIntegral then
            .ok (.mk key doc .INTS none none none none none none
              [] (vs.map pyInt) [] [] [] [])
          else if vs.all isRealNumber then
            .ok (.mk key doc .FLOATS none none none none none none
              (vs.map pyFloat) [] [] [] [] [])
          else if (vs.map to_bytes_or_false).all Option.isSome then
            .ok (.mk key doc .STRINGS none none none none none none
              [] [] ((vs.map to_bytes_or_false).map (fun b => b.getD []))
              [] [] [])
          else if vs.all isTensorInstance then
            .ok (.mk key doc .TENSORS none none none none none none
              [] [] [] (vs.filterMap asTensor) [] [])
          else if vs.all isSparseInstance then
            .ok (.mk key doc .SPARSE_TENSORS none none none none none none
              [] [] [] [] (vs.filterMap asSparse) [])
          else if vs.all isGraphInstance then
            .ok (.mk key doc .GRAPHS none none none none none none
              [] [] [] [] [] (vs.filterMap asGraph))
          else .error .ambiguousAttributeType
        else .error .unsupportedAttributeType

/-- `get_attribute_value`: project the populated variant selected by the
kind tag (proto2 getters read the default for unset singular fields). -/
def get_attribute_value (attr : AttributeProto) : Except AttrError PyVal :=
  match attr.type with
  | .FLOAT => .ok (.float (attr.f.getD 0))
  | .INT => .ok (.int (attr.i.getD 0))
  | .STRING => .ok (.bytes (attr.s.getD []))
  | .TENSOR => .ok (.tensor (attr.t.getD default))
  | .SPARSE_TENSOR => .ok (.sparse (attr.sparse_tensor.getD default))
  | .GRAPH => .ok (.graph (attr.g.getD default))
  | .FLOATS => .ok (.list (attr.floats.map PyVal.float))
  | .INTS => .ok (.list (attr.ints.map PyVal.int))
  | .STRINGS => .ok (.list (attr.strings.map PyVal.bytes))
  | .TENSORS => .ok (.list (attr.tensors.map PyVal.tensor))
  | .SPARSE_TENSORS => .ok (.list (attr.sparse_tensors.map PyVal.sparse))
  | .GRAPHS => .ok (.list (attr.graphs.map PyVal.graph))
  | .UNDEFINED => .error .unsupportedAttributeKind

/-- The value the codec's round trip hands back for an encodable host value:
itself, up to the normalizations the encoding applies (booleans become
ints, text becomes its UTF-8 bytes, integral elements of a mixed numeric
list are upcast to floats). -/
def decodedForm : PyVal → PyVal
  | .float x => .float x
  | .int n => .int n
  | .bool b => .int (if b then 1 else 0)
  | .str s => .bytes (utf8Bytes s)
  | .bytes b => .bytes b
  | .tensor t => .tensor t
  | .sparse sp => .sparse sp
  | .graph g => .graph g
  | .list xs =>
      if xs.all isIntegral then .list (xs.map (fun v => .int (pyInt v)))
      else if xs.all isRealNumber then
        .list (xs.map (fun v => .float (pyFloat v)))
      else if (xs.map to_bytes_or_false).all Option.isSome then
        .list (xs.map (fun v => .bytes ((to_bytes_or_false v).getD [])))
      else .list xs
  | .none_ => .none_

/-- The specification's disambiguation priority (§4.2), written from the
spec's words: floating scalar, integral scalar, text or raw bytes, Tensor,
SparseTensor, Graph; then, for an iterable, all-integral, all-numeric,
all-text/bytes, all-Tensor, all-SparseTensor, all-Graph; an iterable
matching none fails as ambiguous, a non-iterable matching nothing as
unsupported.  Stated to be compared against `make_attribute`. -/
def attrTypeSpec : PyVal → Except AttrError AttrType := fun v =>
  if isFloatInstance v then .ok .FLOAT
  else if isIntegral v then .ok .INT
  else if (to_bytes_or_false v).isSome then .ok .STRING
  else if isTensorInstance v then .ok .TENSOR
  else if isSparseInstance v then .ok .SPARSE_TENSOR
  else if isGraphInstance v then .ok .GRAPH
  else if isIterable v then
    let vs := pyElems v
    if vs.all isIntegral then .ok .INTS
    else if vs.all isRealNumber then .ok .FLOATS
    else if (vs.map to_bytes_or_false).all Option.isSome then .ok .STRINGS
    else if vs.all isTensorInstance then .ok .TENSORS
    else if vs.all isSparseInstance then .ok .SPARSE_TENSORS
    else if vs.all isGraphInstance then .ok .GRAPHS
    else .error .ambiguousAttributeType
  else .error .unsupportedAttributeType

/-! ## Tensor codec (`split_complex_to_pairs`, `make_tensor`) -/

/-- One element of the values sequence handed to `make_tensor`: a real
number, a complex number, or a bytes element (STRING tensors). -/
inductive PyScalar where
  | num (q : Rat)
  | cplx (re im : Rat)
  | bytes (b : List Nat)
deriving DecidableEq, Repr

/-- Python's `.real`: a real number is its own real part, `.real` of a bytes
element is an `AttributeError` in Python (unreachable on every path a
theorem below touches; totalized to `0`). -/
def PyScalar.real : PyScalar → Rat
  | .num q => q
  | .cplx re _ => re
  | .bytes _ => 0

/-- Python's `.imag`: `0` for a real number; `AttributeError` for bytes in
Python (unreachable, totalized to `0`). -/
def PyScalar.imag : PyScalar → Rat
  | .num _ => 0
  | .cplx _ im => im
  | .bytes _ => 0

/-- The `vals` argument of `make_tensor`: a raw byte buffer (`raw = true`
callers) or an element sequence. -/
inductive TensorData where
  | raw (b : List Nat)
  | seq (xs : List PyScalar)
deriving DecidableEq, Repr

/-- Python `len(vals)`: byte count of a buffer, element count of a
sequence. -/
def TensorData.len : TensorData → Nat
  | .raw b => b.length
  | .seq xs => xs.length

/-- `vals` viewed as an element sequence (iterating bytes yields ints). -/
def TensorData.seqView : TensorData → List PyScalar
  | .raw b => b.map (fun n => .num (n : Rat))
  | .seq xs => xs

/-- `split_complex_to_pairs`: element `2k` is the real part and element
`2k + 1` the imaginary part of complex element `k`. -/
def split_complex_to_pairs (ca : List PyScalar) : List PyScalar :=
  (List.range (ca.length * 2)).map fun idx =>
    if idx % 2 == 0 then .num (PyScalar.real (ca.getD (idx / 2) (.num 0)))
    else .num (PyScalar.imag (ca.getD (idx / 2) (.num 0)))

/-- Modelled from the spec: `TENSOR_TYPE_TO_NP_TYPE[data_type].itemsize`,
the byte width of each element kind (the mapping tables live outside this
module).  STRING's entry (the numpy object-pointer width) is never read:
`make_tensor` rejects raw STRING tensors before the width lookup. -/
def itemsize : DataType → Nat
  | .FLOAT => 4
  | .UINT8 => 1
  | .INT8 => 1
  | .UINT16 => 2
  | .INT16 => 2
  | .INT32 => 4
  | .INT64 => 8
  | .STRING => 8
  | .BOOL => 1
  | .FLOAT16 => 2
  | .DOUBLE => 8
  | .UINT32 => 4
  | .UINT64 => 8
  | .COMPLEX64 => 8
  | .COMPLEX128 => 16
  | .BFLOAT16 => 2

/-- Modelled from the spec: `TENSOR_TYPE_TO_STORAGE_TENSOR_TYPE` — 8/16/32
bit integer-like kinds store as INT32, 64-bit integer kinds as
INT64/UINT64, floating kinds as FLOAT/DOUBLE, complex kinds as their
component floating kind (the mapping tables live outside this module). -/
def TENSOR_TYPE_TO_STORAGE_TENSOR_TYPE : DataType → DataType
  | .FLOAT => .FLOAT
  | .UINT8 => .INT32
  | .INT8 => .INT32
  | .UINT16 => .INT32
  | .INT16 => .INT32
  | .INT32 => .INT32
  | .INT64 => .INT64
  | .STRING => .STRING
  | .BOOL => .INT32
  | .FLOAT16 => .INT32
  | .DOUBLE => .DOUBLE
  | .UINT32 => .UINT64
  | .UINT64 => .UINT64
  | .COMPLEX64 => .FLOAT
  | .COMPLEX128 => .DOUBLE
  | .BFLOAT16 => .INT32

/-- Modelled from the spec: `STORAGE_TENSOR_TYPE_TO_FIELD`, the typed field
each storage kind writes to; kinds that are not storage kinds have no
entry (a `KeyError` in Python). -/
def STORAGE_TENSOR_TYPE_TO_FIELD : DataType → Option StorageField
  | .FLOAT => some .floatData
  | .INT32 => some .int32Data
  | .INT64 => some .int64Data
  | .UINT16 => some .int32Data
  | .DOUBLE => some .doubleData
  | .COMPLEX64 => some .floatData
  | .COMPLEX128 => some .doubleData
  | .UINT32 => some .uint64Data
  | .UINT64 => some .uint64Data
  | .STRING => some .stringData
  | .BOOL => some .int32Data
  | _ => none

/-- The typed field `make_tensor` writes for a data type (the composition of
the two mapping tables; total on the defined kinds). -/
def storageField (dt : DataType) : StorageField :=
  (STORAGE_TENSOR_TYPE_TO_FIELD (TENSOR_TYPE_TO_STORAGE_TENSOR_TYPE dt)).getD
    .floatData

/-- Coercion a floating-point typed field applies to an element (the wire
layer rejects non-numbers; unreachable junk maps to the real part). -/
def scalarToRat (v : PyScalar) : Rat := v.real

/-- Coercion an integer typed field applies to an element (the wire layer
rejects non-integral values; the floor totalizes them). -/
def scalarToInt : PyScalar → Int
  | .num q => q.floor
  | .cplx re _ => re.floor
  | .bytes _ => 0

/-- Coercion the bytes-sequence field applies to an element. -/
def scalarToBytes : PyScalar → List Nat
  | .bytes b => b
  | _ => []

/-- Write an element sequence into the typed field `fld` of `tensor`. -/
def writeTypedField (tensor : TensorProto) (fld : StorageField)
    (xs : List PyScalar) : TensorProto :=
  match fld with
  | .floatData => { tensor with float_data := xs.map scalarToRat }
  | .int32Data => { tensor with int32_data := xs.map scalarToInt }
  | .stringData => { tensor with string_data := xs.map scalarToBytes }
  | .int64Data => { tensor with int64_data := xs.map scalarToInt }
  | .doubleData => { tensor with double_data := xs.map scalarToRat }
  | .uint64Data => { tensor with uint64_data := xs.map scalarToInt }

/-- `make_tensor`: reject raw STRING tensors, check the element/byte count
against the dims product (times the byte width when raw), split complex
elements into real/imaginary pairs, then store into the raw buffer or the
typed storage field and attach the dims. -/
def make_tensor (name : String) (data_type : DataType) (dims : List Nat)
    (vals : TensorData) (raw : Bool) : Except TensorError TensorProto :=
  let tensor0 : TensorProto := { name := name, data_type := data_type }
  if data_type = .STRING ∧ raw = true then .error .invalidRawStringTensor
  else
    let size := dims.foldl (fun acc d => acc * d)
      (if raw then itemsize data_type else 1)
    if vals.len ≠ size then .error .sizeMismatch
    else
      let vals' : TensorData :=
        if data_type = .COMPLEX64 ∨ data_type = .COMPLEX128 then
          .seq (split_complex_to_pairs vals.seqView)
        else vals
      let tensor1 :=
        if raw then
          -- Assigning a non-bytes value to `raw_data` is the wire layer's
          -- `TypeError`; the buffer case is the only reachable one.
          { tensor0 with
            raw_data := some (match vals' with | .raw b => b | .seq _ => []) }
        else writeTypedField tensor0 (storageField data_type) vals'.seqView
      .ok { tensor1 with dims := dims }

/-! ## Type/shape builders (`make_tensor_value_info`,
`make_sparse_tensor_value_info`) -/

/-- One entry of the `shape` argument: unset, a concrete size, or a symbolic
name (any other Python value raises; the typed model has no such entry). -/
def ShapeEntry : Type := Option (Int ⊕ String)

/-- The dimension record built for one shape entry, with its positional
denotation when a non-empty denotation list is present. -/
def mkDim (den : List String) (idx : Nat) (d : ShapeEntry) : Dimension :=
  { value := d
    denotation := if den ≠ [] then den.getD idx "" else "" }

/-- The shape proto `make_tensor_value_info` materializes for a present
shape (`dim.extend([])` marks the shape present even when `shape` is
empty), with the denotation length check applied first. -/
def buildShapeProto (shape : List ShapeEntry) (den : List String) :
    Except ValueInfoError TensorShapeProto :=
  if den ≠ [] ∧ den.length ≠ shape.length then
    .error .denotationLengthMismatch
  else
    .ok { dim := shape.enum.map (fun p => mkDim den p.1 p.2) }

/-- `make_tensor_value_info`: name, element type, then — only when `shape`
is present — a materialized (possibly empty) dimension list; a truthy
(non-empty) `shape_denotation` must match the shape's length and attaches
positionally.  A falsy denotation (absent or the empty list) is skipped
entirely, length check included. -/
def make_tensor_value_info (name : String) (elem_type : Nat)
    (shape : Option (List ShapeEntry)) (doc : String)
    (shape_den : Option (List String)) : Except ValueInfoError ValueInfoProto :=
  let den := shape_den.getD []
  match shape with
  | none =>
      .ok { name := name, doc_string := doc
            type := { value := some (.tensorType { elem_type := elem_type }) } }
  | some s => do
      let sh ← buildShapeProto s den
      .ok { name := name, doc_string := doc
            type := { value := some (.tensorType
              { elem_type := elem_type, shape := some sh }) } }

/-- `make_sparse_tensor_value_info`: identical to `make_tensor_value_info`
but populating the sparse-tensor arm of the type oneof. -/
def make_sparse_tensor_value_info (name : String) (elem_type : Nat)
    (shape : Option (List ShapeEntry)) (doc : String)
    (shape_den : Option (List String)) : Except ValueInfoError ValueInfoProto :=
  let den := shape_den.getD []
  match shape with
  | none =>
      .ok { name := name, doc_string := doc
            type := { value := some (.sparseTensorType
              { elem_type := elem_type }) } }
  | some s => do
      let sh ← buildShapeProto s den
      .ok { name := name, doc_string := doc
            type := { value := some (.sparseTensorType
              { elem_type := elem_type, shape := some sh }) } }

/-- The denotation strings attached to a value-info's dimensions, in order
(`none` when no tensor/sparse-tensor shape is present) — the projection the
positional-attachment statements below read. -/
def valueInfoDenotations (v : ValueInfoProto) : Option (List String) :=
  match v.type.value with
  | some (.tensorType tt) =>
      tt.shape.map fun sh => sh.dim.map fun d => d.denotation
  | some (.sparseTensorType tt) =>
      tt.shape.map fun sh => sh.dim.map fun d => d.denotation
  | _ => none

/-! ## Printer (`printable_attribute` … `printable_graph`) -/

/-- Python `sep.join(parts)`. -/
def joinSep (sep : String) : List String → String
  | [] => ""
  | [x] => x
  | x :: y :: xs => x ++ sep ++ joinSep sep (y :: xs)

/-- Concatenation of a string list (used to state how a printed graph's
appendix decomposes). -/
def strConcat : List String → String
  | [] => ""
  | x :: xs => x ++ strConcat xs

/-- The printer's `str_float` (`'{:.15g}'.format(f)`).  The 15-significant
digit decimal rendering of an IEEE double is abstracted to the exact
rational's rendering; no claim below reads these digits. -/
def str_float (x : Rat) : String := toString x

/-- The printer's `str_int` (`'{:d}'.format(i)`). -/
def str_int (n : Int) : String := toString n

/-- Python `repr` of a text value.  Quote selection and escaping are
abstracted; no claim below reads this text. -/
def pyRepr (s : String) : String := "'" ++ s ++ "'"

/-- `bytes.decode('utf-8', errors='ignore')`, abstracted to the ASCII
level (multi-byte sequences are dropped like error bytes); no claim below
reads this text. -/
def utf8DecodeLossy (b : List Nat) : String :=
  String.mk (b.filterMap fun n => if n < 128 then some (Char.ofNat n) else none)

/-- `_sanitize_str`: lossily decode, then truncate at 64 characters with a
`...<+len=N>` suffix.  (The printer only ever passes bytes values.) -/
def sanitize_str (b : List Nat) : String :=
  let sanitized := utf8DecodeLossy b
  if sanitized.length < 64 then sanitized
  else sanitized.take 64 ++ "...<+len=" ++ toString (sanitized.length - 64) ++ ">"

/-- The printer's `str_list`. -/
def str_list (f : α → String) (xs : List α) : String :=
  "[" ++ joinSep ", " (xs.map f) ++ "]"

/-- `TensorProto.DataType.Name` on a raw integer code (`ValueError` on an
unknown code, totalized to the empty name). -/
def dataTypeNameOfNat : Nat → String
  | 0 => "UNDEFINED"
  | 1 => "FLOAT"
  | 2 => "UINT8"
  | 3 => "INT8"
  | 4 => "UINT16"
  | 5 => "INT16"
  | 6 => "INT32"
  | 7 => "INT64"
  | 8 => "STRING"
  | 9 => "BOOL"
  | 10 => "FLOAT16"
  | 11 => "DOUBLE"
  | 12 => "UINT32"
  | 13 => "UINT64"
  | 14 => "COMPLEX64"
  | 15 => "COMPLEX128"
  | 16 => "BFLOAT16"
  | _ => ""

/-- `TensorProto.DataType.Name` on a defined element kind. -/
def DataType.pbName : DataType → String
  | .FLOAT => "FLOAT"
  | .UINT8 => "UINT8"
  | .INT8 => "INT8"
  | .UINT16 => "UINT16"
  | .INT16 => "INT16"
  | .INT32 => "INT32"
  | .INT64 => "INT64"
  | .STRING => "STRING"
  | .BOOL => "BOOL"
  | .FLOAT16 => "FLOAT16"
  | .DOUBLE => "DOUBLE"
  | .UINT32 => "UINT32"
  | .UINT64 => "UINT64"
  | .COMPLEX64 => "COMPLEX64"
  | .COMPLEX128 => "COMPLEX128"
  | .BFLOAT16 => "BFLOAT16"

/-- Python `str` of a repeated numeric/bytes container (used for the
`<Scalar Tensor …>` special case); element rendering shares the printer's
abstractions above. -/
def scalar_tensor_field_str (t : TensorProto) : String :=
  match STORAGE_TENSOR_TYPE_TO_FIELD t.data_type with
  | some .floatData => str_list str_float t.float_data
  | some .int32Data => str_list str_int t.int32_data
  | some .stringData => str_list (fun b => pyRepr (utf8DecodeLossy b)) t.string_data
  | some .int64Data => str_list str_int t.int64_data
  | some .doubleData => str_list str_float t.double_data
  | some .uint64Data => str_list str_int t.uint64_data
  | none => "<KeyError>"

/-- The value text and surfaced subgraphs of one printed attribute,
following the source's `HasField`/truthiness chain in order: f, i, s, t,
g, floats, ints, strings, tensors, graphs, else `<Unknown>`.  The text is
a token list because the source space-joins its `content` pieces. -/
def printable_attribute_core (attr : AttributeProto) :
    List String × List GraphProto :=
  if attr.f.isSome then ([str_float (attr.f.getD 0)], [])
  else if attr.i.isSome then ([str_int (attr.i.getD 0)], [])
  else if attr.s.isSome then ([pyRepr (sanitize_str (attr.s.getD []))], [])
  else if attr.t.isSome then
    let t := attr.t.getD default
    if t.dims.length > 0 then (["<Tensor>"], [])
    else (["<Scalar Tensor " ++ scalar_tensor_field_str t ++ ">"], [])
  else if attr.g.isSome then
    let g := attr.g.getD default
    (["<graph " ++ g.name ++ ">"], [g])
  else if attr.floats ≠ [] then ([str_list str_float attr.floats], [])
  else if attr.ints ≠ [] then ([str_list str_int attr.ints], [])
  else if attr.strings ≠ [] then
    ([str_list (fun b => pyRepr (sanitize_str b)) attr.strings], [])
  else if attr.tensors ≠ [] then (["[<Tensor>, ...]"], [])
  else if attr.graphs.length ≠ 0 then
    ("[" :: (attr.graphs.enum.map fun p =>
        "<graph " ++ p.2.name ++ ">"
          ++ (if p.1 ≠ attr.graphs.length - 1 then "," else ""))
      ++ ["]"],
      attr.graphs)
  else (["<Unknown>"], [])

/-- `printable_attribute` with `subgraphs=True`: the rendered
`name = value` text and the graphs surfaced for deferred expansion (with
`subgraphs=False` the source returns just the same text). -/
def printable_attribute (attr : AttributeProto) : String × List GraphProto :=
  (joinSep " " (attr.name :: "=" :: (printable_attribute_core attr).1),
    (printable_attribute_core attr).2)

/-- `printable_dim`: the set arm of the `dim_value`/`dim_param` oneof (the
source asserts the oneof is set; an unset dimension is totalized). -/
def printable_dim (d : Dimension) : String :=
  match d.value with
  | some (.inl n) => toString n
  | some (.inr p) => p
  | none => "?"

def typeOneofName : TypeValue → String
  | .tensorType _ => "tensor_type"
  | .sparseTensorType _ => "sparse_tensor_type"
  | .sequenceType _ => "sequence_type"

/-- `printable_type`: a tensor type renders its element-type name, plus
`, d0xd1x…` for a non-empty present shape, `, scalar` for a present empty
shape, and nothing when the shape field was never set; an unset oneof
renders empty, other arms as `Unknown type <arm>`. -/
def printable_type (t : TypeProto) : String :=
  match t.value with
  | some (.tensorType tt) =>
      let s := dataTypeNameOfNat tt.elem_type
      (match tt.shape with
       | some sh =>
           if sh.dim.length ≠ 0 then
             s ++ (", " ++ joinSep "x" (sh.dim.map printable_dim))
           else s ++ ", scalar"
       | none => s)
  | none => ""
  | some v => "Unknown type " ++ typeOneofName v

/-- `printable_value_info` (`if v.type:` is always true: a protobuf
message object is always truthy). -/
def printable_value_info (v : ValueInfoProto) : String :=
  "%" ++ v.name ++ "[" ++ printable_type v.type ++ "]"

/-- `printable_tensor_proto` (`t.dims is not None` is always true for a
repeated field). -/
def printable_tensor_proto (t : TensorProto) : String :=
  "%" ++ t.name ++ "[" ++ DataType.pbName t.data_type
    ++ (if t.dims.length ≠ 0 then ", " ++ joinSep "x" (t.dims.map toString)
        else ", scalar")
    ++ "]"

/-- Stable ascending insertion used to model Python `sorted` on the
rendered attribute texts (equal strings are indistinguishable after
joining, so stability is immaterial to the rendered output). -/
def insertSorted (x : String) : List String → List String
  | [] => [x]
  | y :: ys => if x ≤ y then x :: y :: ys else y :: insertSorted x ys

def pySorted (l : List String) : List String := l.foldr insertSorted []

/-- `printable_node` with `subgraphs=True`: renders
`%out1, %out2 = op[attrs](%in1, %in2)` with attributes sorted by rendered
text, and passes up the subgraphs surfaced by its attributes in attribute
order. -/
def printable_node (node : NodeProto) (pfx : String) :
    String × List GraphProto :=
  let results := node.attrs.map printable_attribute
  let graphs := results.flatMap Prod.snd
  let printed_attributes := joinSep ", " (pySorted (results.map Prod.fst))
  let printed_inputs := joinSep ", " (node.input.map fun n => "%" ++ n)
  let outParts : List String :=
    if node.output.length ≠ 0 then
      [joinSep ", " (node.output.map fun n => "%" ++ n), "="]
    else []
  let callPart :=
    if node.attrs.length ≠ 0 then
      node.op_type ++ "[" ++ printed_attributes ++ "](" ++ printed_inputs ++ ")"
    else node.op_type ++ "(" ++ printed_inputs ++ ")"
  (pfx ++ joinSep " " (outParts ++ [callPart]), graphs)

/-- The header lines of a printed graph, up to and including the line that
ends with `{`: the source's mutable `header`/`content` interplay over the
required inputs, the inputs with matching initializers, and the
initializers without a declared input, translated with explicit state
passing.  `initializers` is a Python set, so its `len` counts distinct
names. -/
def graphHeaderLines (g : GraphProto) (pfx : String) : List String :=
  let header := ["graph", g.name]
  if g.input.length ≠ 0 then
    let initializers := g.initializer.map (fun t => t.name)
    let header := header ++ ["("]
    let in_strs :=
      (g.input.filter fun inp => ¬ initializers.contains inp.name).map
        printable_value_info
    let in_with_init_strs :=
      (g.input.filter fun inp => initializers.contains inp.name).map
        printable_value_info
    let (content, header) :=
      if in_strs ≠ [] then
        ([pfx ++ joinSep " " header] ++ in_strs.map (fun l => pfx ++ "  " ++ l),
          ([] : List String))
      else ([], header)
    let header := header ++ [")"]
    let (content, header) :=
      if in_with_init_strs ≠ [] then
        (content
          ++ [pfx ++ joinSep " "
              (header ++ ["optional inputs with matching initializers ("])]
          ++ in_with_init_strs.map (fun l => pfx ++ "  " ++ l),
          [")"])
      else (content, header)
    let (content, header) :=
      if in_with_init_strs.length < initializers.dedup.length then
        let graph_inputs := g.input.map (fun v => v.name)
        let init_strs :=
          (g.initializer.filter fun t => ¬ graph_inputs.contains t.name).map
            printable_tensor_proto
        (content ++ [pfx ++ joinSep " " (header ++ ["initializers ("])]
          ++ init_strs.map (fun l => pfx ++ "  " ++ l),
          [")"])
      else (content, header)
    content ++ [pfx ++ joinSep " " (header ++ ["\x7b"])]
  else [pfx ++ joinSep " " (header ++ ["\x7b"])]

/-- The subgraphs a printed graph surfaces: each node's surfaced graphs, in
node order (the surfaced component of `printable_node` does not depend on
the prefix, so it is collected at the empty prefix). -/
def graphSurfaced (g : GraphProto) : List GraphProto :=
  g.node.flatMap fun n => (printable_node n "").2

/-- The main block of a printed graph: header lines, one line per node, the
`return` line, and the closing `}` line. -/
def graphBodyLines (g : GraphProto) (pfx : String) : List String :=
  let indent := pfx ++ "  "
  graphHeaderLines g pfx
    ++ (g.node.map fun n => (printable_node n indent).1)
    ++ [indent ++ joinSep " " ("return" ::
          (if g.output.length ≠ 0 then
            [joinSep ", " (g.output.map fun o => "%" ++ o.name)]
          else [])),
        pfx ++ "\x7d"]

theorem sizeOf_lt_of_mem_attr_core {sg : GraphProto} (a : AttributeProto)
    (h : sg ∈ (printable_attribute_core a).2) : sizeOf sg < sizeOf a := by
  obtain ⟨nm, ds, ty, f, i, s, t, sp, gOpt, fl, ins, st, te, spt, gr⟩ := a
  cases f with
  | some x => simp [printable_attribute_core, AttributeProto.f] at h
  | none =>
  cases i with
  | some x => simp [printable_attribute_core, AttributeProto.f,
      AttributeProto.i] at h
  | none =>
  cases s with
  | some x => simp [printable_attribute_core, AttributeProto.f,
      AttributeProto.i, AttributeProto.s] at h
  | none =>
  cases t with
  | some tt =>
      simp only [printable_attribute_core, AttributeProto.f, AttributeProto.i,
        AttributeProto.s, AttributeProto.t, Option.isSome_none,
        Option.isSome_some, Bool.false_eq_true, if_false, if_true] at h
      split at h <;> simp at h
  | none =>
  cases gOpt with
  | some gg =>
      simp [printable_attribute_core, AttributeProto.f, AttributeProto.i,
        AttributeProto.s, AttributeProto.t, AttributeProto.g] at h
      subst h
      simp only [AttributeProto.mk.sizeOf_spec, Option.some.sizeOf_spec]
      omega
  | none =>
  simp only [printable_attribute_core, AttributeProto.f, AttributeProto.i,
    AttributeProto.s, AttributeProto.t, AttributeProto.g,
    AttributeProto.floats, AttributeProto.ints, AttributeProto.strings,
    AttributeProto.tensors, AttributeProto.graphs, Option.isSome_none,
    Bool.false_eq_true, if_false] at h
  repeat' split at h
  all_goals
    (have hlt := List.sizeOf_lt_of_mem h
     simp only [AttributeProto.mk.sizeOf_spec]
     try simp at hlt
     omega)

theorem sizeOf_lt_of_mem_node_surfaced {sg : GraphProto} (n : NodeProto)
    (pfx : String) (h : sg ∈ (printable_node n pfx).2) : sizeOf sg < sizeOf n := by
  have h' : sg ∈ (n.attrs.map printable_attribute).flatMap Prod.snd := h
  rw [List.flatMap_map] at h'
  obtain ⟨a, ha, hsg⟩ := List.mem_flatMap.1 h'
  have h1 : sizeOf sg < sizeOf a := sizeOf_lt_of_mem_attr_core a hsg
  have h2 : sizeOf a < sizeOf n.attrs := List.sizeOf_lt_of_mem ha
  obtain ⟨op, inp, out, nm, ds, dom, attrs⟩ := n
  simp only [NodeProto.attrs] at h2
  simp only [NodeProto.mk.sizeOf_spec]
  omega

theorem sizeOf_lt_of_mem_graphSurfaced {sg : GraphProto} (g : GraphProto)
    (h : sg ∈ graphSurfaced g) : sizeOf sg < sizeOf g := by
  obtain ⟨n, hn, hsg⟩ := List.mem_flatMap.1 h
  have h1 : sizeOf sg < sizeOf n := sizeOf_lt_of_mem_node_surfaced n "" hsg
  have h2 : sizeOf n < sizeOf g.node := List.sizeOf_lt_of_mem hn
  obtain ⟨nm, nodes, inp, out, init, sinit, vi, ds⟩ := g
  simp only [GraphProto.node] at h2
  simp only [GraphProto.mk.sizeOf_spec]
  omega

/-- `printable_graph`: the body lines joined by newlines, followed — after
the closing brace — by every surfaced subgraph's own complete rendering,
each introduced by an extra newline (the source appends
`'\n' + printable_graph(g)` as one more joined line per subgraph). -/
def printable_graph (g : GraphProto) (pfx : String) : String :=
  joinSep "\n" (graphBodyLines g pfx
    ++ (graphSurfaced g).attach.map fun sg => "\n" ++ printable_graph sg.1 "")
termination_by sizeOf g
decreasing_by exact sizeOf_lt_of_mem_graphSurfaced g sg.2

/-! ## Theorems -/

theorem lookupPair_append (a b : List ((String × Int) × Nat)) (p : String × Int) :
    lookupPair (a ++ b) p = (lookupPair a p).or (lookupPair b p) := by
  induction a with
  | nil => simp [lookupPair]
  | cons kv rest ih =>
      obtain ⟨k, v⟩ := kv
      simp only [List.cons_append, lookupPair]
      split
      · rfl
      · exact ih

theorem lookupPair_processRow (res : List ((String × Int) × Nat))
    (row : VersionRow) (p : String × Int) :
    lookupPair (processRow res row) p =
      (lookupPair res p).or
        (if p ∈ rowPairs row then some row.ir else none) := by
  unfold processRow
  generalize rowPairs row = pairs
  induction pairs generalizing res with
  | nil => simp
  | cons q qs ih =>
      simp only [List.foldl_cons]
      rw [ih]
      by_cases hq : (lookupPair res q).isSome = true
      · rw [if_pos hq]
        by_cases hpq : p = q
        · subst hpq
          obtain ⟨w, hw⟩ := Option.isSome_iff_exists.1 hq
          simp [hw, List.mem_cons]
        · simp [List.mem_cons, hpq]
      · rw [if_neg hq]
        rw [lookupPair_append]
        by_cases hpq : p = q
        · subst hpq
          have hres : lookupPair res p = none := by
            cases h : lookupPair res p
            · rfl
            · rw [h] at hq; simp at hq
          simp [hres, lookupPair, List.mem_cons]
        · simp only [lookupPair, hpq, if_false, List.mem_cons]
          simp [Option.or_assoc]

theorem lookupPair_create (table : List VersionRow) (p : String × Int) :
    lookupPair (create_op_set_id_version_map table) p =
      (table.find? fun r => decide (p ∈ rowPairs r)).map VersionRow.ir := by
  suffices h : ∀ res, lookupPair (table.foldl processRow res) p =
      (lookupPair res p).or
        ((table.find? fun r => decide (p ∈ rowPairs r)).map VersionRow.ir) by
    simpa [lookupPair, create_op_set_id_version_map] using h []
  induction table with
  | nil => intro res; simp
  | cons row rest ih =>
      intro res
      simp only [List.foldl_cons]
      rw [ih, lookupPair_processRow]
      by_cases hmem : p ∈ rowPairs row
      · simp [hmem, List.find?_cons, Option.or_assoc]
      · simp [hmem, List.find?_cons]

/-- C3: the map built from the version table is first-write-wins — for every
`(domain, version)` pair occurring in some table row, the recorded IR
version (and the one `find_min_ir_version_for` returns for that pair) is
the one of the first row, in file order, introducing the pair. -/
theorem c3_version_map_first_write_wins (d : String) (v : Int)
    (row : VersionRow)
    (h : VERSION_TABLE.find? (fun r => decide ((d, v) ∈ rowPairs r)) = some row) :
    lookupPair OP_SET_ID_VERSION_MAP (d, v) = some row.ir ∧
    find_min_ir_version_for [{ domain := d, version := v }] = .ok row.ir := by
  have hlook : lookupPair OP_SET_ID_VERSION_MAP (d, v) = some row.ir := by
    unfold OP_SET_ID_VERSION_MAP
    rw [lookupPair_create, h]
    rfl
  refine ⟨hlook, ?_⟩
  have hd : d ≠ "" := by
    have hpred := List.find?_some h
    have hmem : (d, v) ∈ rowPairs row := of_decide_eq_true hpred
    have hd' : d ∈ domainNames := (List.of_mem_zip hmem).1
    simp [domainNames] at hd'
    rcases hd' with rfl | rfl | rfl <;> decide
  have hfm : find_min d v = .ok row.ir := by
    unfold find_min
    rw [if_neg hd, hlook]
  have hne : ({ domain := d, version := v } : OperatorSetIdProto) ::
      ([] : List OperatorSetIdProto) ≠ [] := by simp
  unfold find_min_ir_version_for
  rw [if_pos hne]
  rw [List.mapM_cons, hfm]
  rfl

/-- Witness for C3 at a pair a later row re-lists with a different IR
version: `(ai.onnx.ml, 2)` first appears in the 1.6.0 row with IR 6 while
the 1.7.0 row lists IR 7 for the same pair. -/
theorem c3_witness :
    lookupPair OP_SET_ID_VERSION_MAP ("ai.onnx.ml", 2) = some 6 ∧
    find_min_ir_version_for [{ domain := "ai.onnx.ml", version := 2 }] =
      .ok 6 :=
  c3_version_map_first_write_wins "ai.onnx.ml" 2 ⟨"1.6.0", 6, [11, 2]⟩ rfl

theorem mapM_find_min (l : List OperatorSetIdProto) :
    l.mapM (fun x => find_min x.domain x.version) =
      if ∀ x ∈ l, lookupPair OP_SET_ID_VERSION_MAP (opsetKey x) ≠ none then
        .ok (l.map fun x =>
          (lookupPair OP_SET_ID_VERSION_MAP (opsetKey x)).getD 0)
      else .error .unsupportedOpset := by
  induction l with
  | nil => simp; rfl
  | cons x xs ih =>
      rw [List.mapM_cons]
      have hkey : find_min x.domain x.version =
          match lookupPair OP_SET_ID_VERSION_MAP (opsetKey x) with
          | some ir => .ok ir
          | none => .error .unsupportedOpset := rfl
      cases hx : lookupPair OP_SET_ID_VERSION_MAP (opsetKey x) with
      | none =>
          have hfm : find_min x.domain x.version = .error .unsupportedOpset := by
            rw [hkey, hx]
          rw [hfm]
          have hnot : ¬ ∀ y ∈ x :: xs,
              lookupPair OP_SET_ID_VERSION_MAP (opsetKey y) ≠ none := by
            intro hall
            exact hall x (List.mem_cons_self x xs) hx
          rw [if_neg hnot]
          rfl
      | some ir =>
          have hfm : find_min x.domain x.version = .ok ir := by rw [hkey, hx]
          rw [hfm, ih]
          by_cases hall : ∀ y ∈ xs, lookupPair OP_SET_ID_VERSION_MAP (opsetKey y) ≠ none
          · have hall' : ∀ y ∈ x :: xs,
                lookupPair OP_SET_ID_VERSION_MAP (opsetKey y) ≠ none := by
              intro y hy
              rcases List.mem_cons.1 hy with rfl | hy'
              · simp [hx]
              · exact hall y hy'
            rw [if_pos hall, if_pos hall', List.map_cons, hx]
            rfl
          · have hnot : ¬ ∀ y ∈ x :: xs,
                lookupPair OP_SET_ID_VERSION_MAP (opsetKey y) ≠ none := by
              intro hall'
              exact hall fun y hy => hall' y (List.mem_cons_of_mem x hy)
            rw [if_neg hall, if_neg hnot]
            rfl

/-- C4: `find_min_ir_version_for` returns exactly 3 for the empty list; for
a non-empty list it defaults empty domains to `ai.onnx` (via `opsetKey`),
fails with the unsupported-opset error when any pair is absent from the
version map, and otherwise returns the maximum recorded IR version. -/
theorem c4_find_min_ir_version_spec :
    find_min_ir_version_for [] = .ok 3 ∧
    (∀ l : List OperatorSetIdProto, l ≠ [] →
      ((∃ x ∈ l, lookupPair OP_SET_ID_VERSION_MAP (opsetKey x) = none) →
        find_min_ir_version_for l = .error .unsupportedOpset) ∧
      ((∀ x ∈ l, lookupPair OP_SET_ID_VERSION_MAP (opsetKey x) ≠ none) →
        find_min_ir_version_for l =
          .ok (listMax (l.map fun x =>
            (lookupPair OP_SET_ID_VERSION_MAP (opsetKey x)).getD 0)))) := by
  refine ⟨rfl, fun l hne => ⟨fun hex => ?_, fun hall => ?_⟩⟩
  · have hnot : ¬ ∀ x ∈ l, lookupPair OP_SET_ID_VERSION_MAP (opsetKey x) ≠ none := by
      intro hall
      obtain ⟨x, hx, hnone⟩ := hex
      exact hall x hx hnone
    unfold find_min_ir_version_for
    rw [if_pos hne]
    rw [mapM_find_min, if_neg hnot]
    rfl
  · unfold find_min_ir_version_for
    rw [if_pos hne]
    rw [mapM_find_min, if_pos hall]
    rfl

/-- Witness for C4: a default-domain lookup succeeds with the floor value 3,
an unknown domain fails with the unsupported-opset error. -/
theorem c4_witness :
    find_min_ir_version_for [{ domain := "", version := 1 }] = .ok 3 ∧
    find_min_ir_version_for [{ domain := "nope", version := 1 }] =
      .error .unsupportedOpset := by
  constructor
  · exact (c4_find_min_ir_version_spec.2 [{ domain := "", version := 1 }]
      (by simp)).2 (by decide)
  · exact (c4_find_min_ir_version_spec.2 [{ domain := "nope", version := 1 }]
      (by simp)).1 ⟨{ domain := "nope", version := 1 }, by simp, rfl⟩

/-- C5 counterexample: with no `opset_imports` and no `ir_version`,
`make_model_gen_version` records IR version 3 (the empty-list floor), while
the model it builds ends up with the synthesized default import
`("", 14)`, whose §4.1 lookup over those final imports yields 7 — so the
recorded version is not the lookup over the imports the model ends up
with. -/
theorem c5_counterexample :
    (make_model_gen_version default {}).map ModelProto.ir_version = .ok 3 ∧
    (make_model_gen_version default {}).map ModelProto.opset_import =
      .ok [{ domain := "", version := 14 }] ∧
    find_min_ir_version_for [{ domain := "", version := 14 }] = .ok 7 ∧
    (3 : Nat) ≠ 7 :=
  ⟨rfl, rfl, rfl, by decide⟩

/-- C5 (amended): an explicit `ir_version` field is used unchanged;
otherwise the generated version is the §4.1 lookup over the
`opset_imports` keyword exactly as supplied — the empty list (floor 3)
when the keyword is absent — not over the default import `make_model`
synthesizes afterwards; the imports themselves are passed through
verbatim, or replaced by the synthesized default when absent. -/
theorem c5_gen_version_amended (g : GraphProto) (kw : ModelKwargs) :
    (∀ v, kw.ir_version = some v →
      make_model_gen_version g kw = .ok (make_model g kw) ∧
      (make_model g kw).ir_version = v) ∧
    (kw.ir_version = none →
      ∀ m, make_model_gen_version g kw = .ok m →
        find_min_ir_version_for (kw.opset_imports.getD []) = .ok m.ir_version ∧
        m.opset_import = (match kw.opset_imports with
          | some imports => imports
          | none => [{ domain := "", version := onnx_opset_version }])) := by
  constructor
  · intro v hv
    constructor
    · simp [make_model_gen_version, hv]
    · simp [make_model, hv]
  · intro hnone m hm
    cases hfind : find_min_ir_version_for (kw.opset_imports.getD []) with
    | error e =>
        simp only [make_model_gen_version, hnone, hfind] at hm
        exact Except.noConfusion hm
    | ok ir =>
        simp only [make_model_gen_version, hnone, hfind] at hm
        have hm' : make_model g { kw with ir_version := some ir } = m :=
          Except.ok.inj hm
        subst hm'
        constructor
        · simp [make_model]
        · cases hoi : kw.opset_imports <;> simp [make_model, hoi]

/-- Witness for C5's amended statement: an explicit `ir_version := 42` is
kept verbatim, and the no-keyword call records the floor 3. -/
theorem c5_witness :
    (make_model_gen_version default { ir_version := some 42 } =
      .ok (make_model default { ir_version := some 42 }) ∧
     (make_model default { ir_version := some 42 }).ir_version = 42) ∧
    find_min_ir_version_for (({} : ModelKwargs).opset_imports.getD []) =
      .ok (make_model default
        { ir_version := some 3 } : ModelProto).ir_version :=
  ⟨(c5_gen_version_amended default { ir_version := some 42 }).1 42 rfl,
   ((c5_gen_version_amended default {}).2 rfl _ rfl).1⟩

theorem filterMap_asTensor_id (xs : List PyVal)
    (h : ∀ x ∈ xs, isTensorInstance x = true) :
    (xs.filterMap asTensor).map PyVal.tensor = xs := by
  induction xs with
  | nil => rfl
  | cons v vs ih =>
      have hv := h v (List.mem_cons_self v vs)
      have hvs := fun x hx => h x (List.mem_cons_of_mem v hx)
      cases v <;> simp [isTensorInstance] at hv
      simp [List.filterMap_cons, asTensor, ih hvs]

theorem filterMap_asSparse_id (xs : List PyVal)
    (h : ∀ x ∈ xs, isSparseInstance x = true) :
    (xs.filterMap asSparse).map PyVal.sparse = xs := by
  induction xs with
  | nil => rfl
  | cons v vs ih =>
      have hv := h v (List.mem_cons_self v vs)
      have hvs := fun x hx => h x (List.mem_cons_of_mem v hx)
      cases v <;> simp [isSparseInstance] at hv
      simp [List.filterMap_cons, asSparse, ih hvs]

theorem filterMap_asGraph_id (xs : List PyVal)
    (h : ∀ x ∈ xs, isGraphInstance x = true) :
    (xs.filterMap asGraph).map PyVal.graph = xs := by
  induction xs with
  | nil => rfl
  | cons v vs ih =>
      have hv := h v (List.mem_cons_self v vs)
      have hvs := fun x hx => h x (List.mem_cons_of_mem v hx)
      cases v <;> simp [isGraphInstance] at hv
      simp [List.filterMap_cons, asGraph, ih hvs]

/-- C1: for every host value each of the twelve variants accepts, decoding
the record `make_attribute` produces with `get_attribute_value` yields a
value equal to the original (booleans as their integer value, text as its
UTF-8 bytes, integral members of a mixed numeric list upcast to floats). -/
theorem c1_attribute_roundtrip (key doc : String) (v : PyVal)
    (a : AttributeProto) (h : make_attribute key v doc = .ok a) :
    get_attribute_value a = .ok (decodedForm v) := by
  cases v with
  | float x =>
      simp [make_attribute, isFloatInstance, isIntegral, isRealNumber, to_bytes_or_false, isTensorInstance, isSparseInstance, isGraphInstance, isIterable, pyElems] at h
      subst h; rfl
  | int n =>
      simp [make_attribute, isFloatInstance, isIntegral, isRealNumber, to_bytes_or_false, isTensorInstance, isSparseInstance, isGraphInstance, isIterable, pyElems] at h
      subst h; rfl
  | bool b =>
      simp [make_attribute, isFloatInstance, isIntegral, isRealNumber, to_bytes_or_false, isTensorInstance, isSparseInstance, isGraphInstance, isIterable, pyElems] at h
      subst h; rfl
  | str s =>
      simp [make_attribute, isFloatInstance, isIntegral, isRealNumber, to_bytes_or_false, isTensorInstance, isSparseInstance, isGraphInstance, isIterable, pyElems] at h
      subst h; rfl
  | bytes b =>
      simp [make_attribute, isFloatInstance, isIntegral, isRealNumber, to_bytes_or_false, isTensorInstance, isSparseInstance, isGraphInstance, isIterable, pyElems] at h
      subst h; rfl
  | tensor t =>
      simp [make_attribute, isFloatInstance, isIntegral, isRealNumber, to_bytes_or_false, isTensorInstance, isSparseInstance, isGraphInstance, isIterable, pyElems, asTensor] at h
      subst h; rfl
  | sparse sp =>
      simp [make_attribute, isFloatInstance, isIntegral, isRealNumber, to_bytes_or_false, isTensorInstance, isSparseInstance, isGraphInstance, isIterable, pyElems, asSparse] at h
      subst h; rfl
  | graph g =>
      simp [make_attribute, isFloatInstance, isIntegral, isRealNumber, to_bytes_or_false, isTensorInstance, isSparseInstance, isGraphInstance, isIterable, pyElems, asGraph] at h
      subst h; rfl
  | none_ => simp [make_attribute, isFloatInstance, isIntegral, isRealNumber, to_bytes_or_false, isTensorInstance, isSparseInstance, isGraphInstance, isIterable, pyElems] at h
  | list xs =>
      by_cases h1 : xs.all isIntegral = true
      · simp [make_attribute, isFloatInstance, isIntegral, isRealNumber, to_bytes_or_false, isTensorInstance, isSparseInstance, isGraphInstance, isIterable, pyElems, h1] at h
        subst h
        simp [get_attribute_value, decodedForm, AttributeProto.type,
          AttributeProto.ints, h1, List.map_map, Function.comp]
      · by_cases h2 : xs.all isRealNumber = true
        · simp [make_attribute, isFloatInstance, isIntegral, isRealNumber, to_bytes_or_false, isTensorInstance, isSparseInstance, isGraphInstance, isIterable, pyElems, h1, h2] at h
          subst h
          simp [get_attribute_value, decodedForm, AttributeProto.type,
            AttributeProto.floats, h1, h2, List.map_map, Function.comp]
        · by_cases h3 : (xs.map to_bytes_or_false).all Option.isSome = true
          · simp [make_attribute, isFloatInstance, isIntegral, isRealNumber, to_bytes_or_false, isTensorInstance, isSparseInstance, isGraphInstance, isIterable, pyElems, h1, h2, h3] at h
            subst h
            simp [get_attribute_value, decodedForm, AttributeProto.type,
              AttributeProto.strings, h1, h2, h3, List.map_map, Function.comp]
          · by_cases h4 : xs.all isTensorInstance = true
            · simp [make_attribute, isFloatInstance, isIntegral, isRealNumber, to_bytes_or_false, isTensorInstance, isSparseInstance, isGraphInstance, isIterable, pyElems, h1, h2, h3, h4] at h
              subst h
              simp only [get_attribute_value, AttributeProto.type,
                AttributeProto.tensors]
              rw [filterMap_asTensor_id xs (List.all_eq_true.1 h4)]
              simp [decodedForm, h1, h2, h3]
            · by_cases h5 : xs.all isSparseInstance = true
              · simp [make_attribute, isFloatInstance, isIntegral, isRealNumber, to_bytes_or_false, isTensorInstance, isSparseInstance, isGraphInstance, isIterable, pyElems, h1, h2, h3, h4, h5] at h
                subst h
                simp only [get_attribute_value, AttributeProto.type,
                  AttributeProto.sparse_tensors]
                rw [filterMap_asSparse_id xs (List.all_eq_true.1 h5)]
                simp [decodedForm, h1, h2, h3]
              · by_cases h6 : xs.all isGraphInstance = true
                · simp [make_attribute, isFloatInstance, isIntegral, isRealNumber, to_bytes_or_false, isTensorInstance, isSparseInstance, isGraphInstance, isIterable, pyElems, h1, h2, h3, h4, h5, h6] at h
                  subst h
                  simp only [get_attribute_value, AttributeProto.type,
                    AttributeProto.graphs]
                  rw [filterMap_asGraph_id xs (List.all_eq_true.1 h6)]
                  simp [decodedForm, h1, h2, h3]
                · simp [make_attribute, isFloatInstance, isIntegral, isRealNumber, to_bytes_or_false, isTensorInstance, isSparseInstance, isGraphInstance, isIterable, pyElems, h1, h2, h3, h4, h5, h6] at h

/-- Witness for C1: round-tripping the int list `[1, 2, 3]` (the record
`make_attribute` yields for it decodes back to `[1, 2, 3]`). -/
theorem c1_witness :
    get_attribute_value (.mk "k" "" .INTS none none none none none none
      [] [1, 2, 3] [] [] [] []) = .ok (.list [.int 1, .int 2, .int 3]) :=
  c1_attribute_roundtrip "k" "" (.list [.int 1, .int 2, .int 3]) _ rfl

/-- C2: `make_attribute` selects the encoded variant (and its two failure
modes) exactly by the specification's fixed first-match priority,
formalized as `attrTypeSpec`. -/
theorem c2_make_attribute_dispatch (key doc : String) (v : PyVal) :
    (make_attribute key v doc).map AttributeProto.type = attrTypeSpec v := by
  cases v with
  | float x => rfl
  | int n => rfl
  | bool b => rfl
  | str s => rfl
  | bytes b => rfl
  | tensor t => rfl
  | sparse sp => rfl
  | graph g => rfl
  | none_ => rfl
  | list xs =>
      by_cases h1 : xs.all isIntegral = true
      · simp [make_attribute, isFloatInstance, isIntegral, isRealNumber, to_bytes_or_false, isTensorInstance, isSparseInstance, isGraphInstance, isIterable, pyElems, attrTypeSpec, h1, Except.map,
          AttributeProto.type]
      · by_cases h2 : xs.all isRealNumber = true
        · simp [make_attribute, isFloatInstance, isIntegral, isRealNumber, to_bytes_or_false, isTensorInstance, isSparseInstance, isGraphInstance, isIterable, pyElems, attrTypeSpec, h1, h2, Except.map,
            AttributeProto.type]
        · by_cases h3 : (xs.map to_bytes_or_false).all Option.isSome = true
          · simp [make_attribute, isFloatInstance, isIntegral, isRealNumber, to_bytes_or_false, isTensorInstance, isSparseInstance, isGraphInstance, isIterable, pyElems, attrTypeSpec, h1, h2, h3,
              Except.map, AttributeProto.type]
          · by_cases h4 : xs.all isTensorInstance = true
            · simp [make_attribute, isFloatInstance, isIntegral, isRealNumber, to_bytes_or_false, isTensorInstance, isSparseInstance, isGraphInstance, isIterable, pyElems, attrTypeSpec, h1, h2, h3, h4,
                Except.map, AttributeProto.type]
            · by_cases h5 : xs.all isSparseInstance = true
              · simp [make_attribute, isFloatInstance, isIntegral, isRealNumber, to_bytes_or_false, isTensorInstance, isSparseInstance, isGraphInstance, isIterable, pyElems, attrTypeSpec, h1, h2, h3, h4,
                  h5, Except.map, AttributeProto.type]
              · by_cases h6 : xs.all isGraphInstance = true
                · simp [make_attribute, isFloatInstance, isIntegral, isRealNumber, to_bytes_or_false, isTensorInstance, isSparseInstance, isGraphInstance, isIterable, pyElems, attrTypeSpec, h1, h2, h3,
                    h4, h5, h6, Except.map, AttributeProto.type]
                · simp [make_attribute, isFloatInstance, isIntegral, isRealNumber, to_bytes_or_false, isTensorInstance, isSparseInstance, isGraphInstance, isIterable, pyElems, attrTypeSpec, h1, h2, h3,
                    h4, h5, h6, Except.map, AttributeProto.type]

theorem split_complex_to_pairs_cons (z : PyScalar) (ca : List PyScalar) :
    split_complex_to_pairs (z :: ca) =
      .num z.real :: .num z.imag :: split_complex_to_pairs ca := by
  unfold split_complex_to_pairs
  have hlen : (z :: ca).length * 2 = ca.length * 2 + 1 + 1 := by
    simp [List.length_cons]; ring
  rw [hlen, List.range_succ_eq_map, List.range_succ_eq_map]
  simp only [List.map_cons, List.map_map, List.cons.injEq]
  refine ⟨rfl, rfl, ?_⟩
  apply List.map_congr_left
  intro idx _
  have hmod : (idx + 1 + 1) % 2 = idx % 2 := by omega
  have hdiv : (idx + 1 + 1) / 2 = idx / 2 + 1 := by omega
  simp only [Function.comp, Nat.succ_eq_add_one]
  rw [hmod, hdiv]
  split <;> simp [List.getD_cons_succ]

theorem split_complex_map_real (ca : List PyScalar) :
    (split_complex_to_pairs ca).map scalarToRat =
      ca.flatMap fun z => [z.real, z.imag] := by
  induction ca with
  | nil => rfl
  | cons z cs ih =>
      rw [split_complex_to_pairs_cons]
      simp [List.flatMap_cons, ih, scalarToRat, PyScalar.real]

theorem foldl_mul_eq (l : List Nat) (a : Nat) :
    l.foldl (fun acc d => acc * d) a = a * l.prod := by
  induction l generalizing a with
  | nil => simp
  | cons d l ih => simp [ih, Nat.mul_assoc]

theorem writeTypedField_name (t : TensorProto) (fld : StorageField)
    (xs : List PyScalar) : (writeTypedField t fld xs).name = t.name := by
  cases fld <;> rfl

theorem writeTypedField_data_type (t : TensorProto) (fld : StorageField)
    (xs : List PyScalar) : (writeTypedField t fld xs).data_type = t.data_type := by
  cases fld <;> rfl

/-- C6: for the complex data types with `raw = false`, `make_tensor` stores
each complex element as two consecutive real entries — real part then
imaginary part, so 2 complex values become the 4 stored reals
`[re0, im0, re1, im1]` — in the typed field, while the tensor's dims are
exactly the caller's dims (complex elements, not the doubled count). -/
theorem c6_complex_split (name : String) (dims : List Nat)
    (vals : List PyScalar) (dt : DataType)
    (hdt : dt = .COMPLEX64 ∨ dt = .COMPLEX128) (t : TensorProto)
    (h : make_tensor name dt dims (.seq vals) false = .ok t) :
    t.dims = dims ∧
    (dt = .COMPLEX64 →
      t.float_data = vals.flatMap fun z => [z.real, z.imag]) ∧
    (dt = .COMPLEX128 →
      t.double_data = vals.flatMap fun z => [z.real, z.imag]) := by
  rcases hdt with rfl | rfl
  · simp [make_tensor, TensorData.seqView, writeTypedField, storageField,
      TENSOR_TYPE_TO_STORAGE_TENSOR_TYPE, STORAGE_TENSOR_TYPE_TO_FIELD] at h
    split at h
    case _ =>
      have hok := Except.ok.inj h
      subst hok
      refine ⟨rfl, fun _ => ?_, fun hcontra => by simp at hcontra⟩
      exact split_complex_map_real vals
    case _ => exact Except.noConfusion h
  · simp [make_tensor, TensorData.seqView, writeTypedField, storageField,
      TENSOR_TYPE_TO_STORAGE_TENSOR_TYPE, STORAGE_TENSOR_TYPE_TO_FIELD] at h
    split at h
    case _ =>
      have hok := Except.ok.inj h
      subst hok
      refine ⟨rfl, fun hcontra => by simp at hcontra, fun _ => ?_⟩
      exact split_complex_map_real vals
    case _ => exact Except.noConfusion h

/-- Witness for C6: encoding the two complex values `1+2i, 3+4i` with dims
`[2]` stores the four reals `[1, 2, 3, 4]` while dims stay `[2]`. -/
theorem c6_witness :
    ({ name := "c", data_type := DataType.COMPLEX64, dims := [2]
       float_data := [1, 2, 3, 4] } : TensorProto).dims = [2] ∧
    ({ name := "c", data_type := DataType.COMPLEX64, dims := [2]
       float_data := [1, 2, 3, 4] } : TensorProto).float_data =
      [PyScalar.cplx 1 2, PyScalar.cplx 3 4].flatMap
        (fun z => [z.real, z.imag]) := by
  have h := c6_complex_split "c" [2] [.cplx 1 2, .cplx 3 4] .COMPLEX64
    (Or.inl rfl) _ rfl
  exact ⟨h.1, h.2.1 rfl⟩

/-- C7: `make_tensor` fails with the invalid-raw-string error exactly for
raw STRING tensors; otherwise it fails with the size-mismatch error iff
the supplied length differs from the dims product (times the byte width
when raw), and on success the tensor carries the given name, data type and
dims. -/
theorem c7_make_tensor_checks (name : String) (dt : DataType)
    (dims : List Nat) (vals : TensorData) (raw : Bool) :
    (dt = .STRING ∧ raw = true →
      make_tensor name dt dims vals raw = .error .invalidRawStringTensor) ∧
    (¬(dt = .STRING ∧ raw = true) →
      ((make_tensor name dt dims vals raw = .error .sizeMismatch ↔
        vals.len ≠ (if raw = true then itemsize dt else 1) * dims.prod) ∧
       (∀ t, make_tensor name dt dims vals raw = .ok t →
         t.name = name ∧ t.data_type = dt ∧ t.dims = dims))) := by
  constructor
  · intro hsr
    simp only [make_tensor]
    rw [if_pos hsr]
  · intro hns
    constructor
    · simp only [make_tensor]
      rw [if_neg hns, foldl_mul_eq]
      constructor
      · intro heq
        by_cases hc : vals.len ≠ (if raw = true then itemsize dt else 1) * dims.prod
        · exact hc
        · rw [if_neg hc] at heq
          exact Except.noConfusion heq
      · intro hne
        rw [if_pos hne]
    · intro t ht
      simp only [make_tensor] at ht
      rw [if_neg hns, foldl_mul_eq] at ht
      by_cases hc : vals.len ≠ (if raw = true then itemsize dt else 1) * dims.prod
      · rw [if_pos hc] at ht
        exact Except.noConfusion ht
      · rw [if_neg hc] at ht
        have hok := Except.ok.inj ht
        subst hok
        by_cases hr : raw = true
        · simp [hr]
        · simp [hr, writeTypedField_name, writeTypedField_data_type]

/-- Witness for C7: a raw STRING tensor is rejected; a FLOAT tensor with
dims `[2, 2]` fails with the size-mismatch error on 3 values and succeeds
on 4 values, carrying the given name, data type and dims. -/
theorem c7_witness :
    make_tensor "x" .STRING [1] (.seq [.bytes [120]]) true =
      .error .invalidRawStringTensor ∧
    make_tensor "x" .FLOAT [2, 2]
      (.seq [.num 1, .num 2, .num 3]) false = .error .sizeMismatch ∧
    (({ name := "x", data_type := .FLOAT, dims := [2, 2], float_data := [1, 2, 3, 4] } : TensorProto).name = "x" ∧
      ({ name := "x", data_type := .FLOAT, dims := [2, 2], float_data := [1, 2, 3, 4] } : TensorProto).data_type = .FLOAT ∧
      ({ name := "x", data_type := .FLOAT, dims := [2, 2], float_data := [1, 2, 3, 4] } : TensorProto).dims = [2, 2]) := by
  refine ⟨?_, ?_, ?_⟩
  · exact (c7_make_tensor_checks "x" .STRING [1] (.seq [.bytes [120]])
      true).1 ⟨rfl, rfl⟩
  · exact ((c7_make_tensor_checks "x" .FLOAT [2, 2]
      (.seq [.num 1, .num 2, .num 3]) false).2 (by simp)).1.mpr (by decide)
  · exact ((c7_make_tensor_checks "x" .FLOAT [2, 2]
      (.seq [.num 1, .num 2, .num 3, .num 4]) false).2 (by simp)).2 _ rfl

/-- C8: an explicitly empty shape materializes a present zero-length
dimension list — printed as the known-scalar form `TYPE, scalar` — while an
absent shape leaves the shape field unset — printed as the bare type name
(shape unknown) — and the two printed forms always differ. -/
theorem c8_empty_vs_absent_shape (name : String) (et : Nat) (doc : String) :
    make_tensor_value_info name et (some []) doc none =
      .ok { name := name, doc_string := doc,
            type := { value := some (.tensorType
              { elem_type := et, shape := some { dim := [] } }) } } ∧
    make_tensor_value_info name et none doc none =
      .ok { name := name, doc_string := doc,
            type := { value := some (.tensorType
              { elem_type := et, shape := none }) } } ∧
    printable_type { value := some (.tensorType
        { elem_type := et, shape := some { dim := [] } }) } =
      dataTypeNameOfNat et ++ ", scalar" ∧
    printable_type { value := some (.tensorType
        { elem_type := et, shape := none }) } = dataTypeNameOfNat et ∧
    dataTypeNameOfNat et ++ ", scalar" ≠ dataTypeNameOfNat et := by
  refine ⟨rfl, rfl, rfl, rfl, ?_⟩
  intro hcontra
  have h2 := congrArg String.length hcontra
  rw [String.length_append] at h2
  have ha : (", scalar" : String).length = 8 := rfl
  rw [ha] at h2
  omega

/-- C9 counterexample: a zero-length denotation list against a length-1
shape does not fail — the empty list is falsy, so the length check is
skipped and the builder succeeds, contradicting the claimed
denotation-length failure for the `(0, 1)` pair. -/
theorem c9_counterexample :
    make_tensor_value_info "x" 1 (some [some (Sum.inl 1)]) "" (some []) =
      .ok { name := "x", doc_string := "",
            type := { value := some (.tensorType { elem_type := 1, shape := some { dim := [{ value := some (Sum.inl 1), denotation := "" }] } }) } } ∧
    make_tensor_value_info "x" 1 (some [some (Sum.inl 1)]) "" (some []) ≠
      .error .denotationLengthMismatch :=
  ⟨rfl, fun h => Except.noConfusion h⟩

theorem enum_getD_eq (s : List ShapeEntry) (den : List String)
    (h : den.length = s.length) :
    s.enum.map (fun p => den.getD p.1 "") = den := by
  apply List.ext_getElem
  · simp [h]
  · intro i h1 h2
    simp [List.getElem_enum, List.getD, List.getElem?_eq_getElem h2]

/-- C9 (amended): for a present shape and a truthy (non-empty) denotation
list, both value-info builders fail with the denotation-length error
exactly when the lengths differ, and attach the denotations positionally
when they match; an absent or empty denotation list is skipped entirely,
so the `(0, n)` length pair never fails. -/
theorem c9_denotation_length (name : String) (et : Nat) (doc : String)
    (s : List ShapeEntry) (den : List String) (hden : den ≠ []) :
    (make_tensor_value_info name et (some s) doc (some den) =
        .error .denotationLengthMismatch ↔ den.length ≠ s.length) ∧
    (make_sparse_tensor_value_info name et (some s) doc (some den) =
        .error .denotationLengthMismatch ↔ den.length ≠ s.length) ∧
    (den.length = s.length →
      ∀ v, make_tensor_value_info name et (some s) doc (some den) = .ok v →
        valueInfoDenotations v = some den) ∧
    (den.length = s.length →
      ∀ v, make_sparse_tensor_value_info name et (some s) doc (some den) =
          .ok v →
        valueInfoDenotations v = some den) := by
  have hiff : ∀ r : Except ValueInfoError TensorShapeProto,
      buildShapeProto s den = r → True := fun _ _ => trivial
  refine ⟨?_, ?_, ?_, ?_⟩
  · simp only [make_tensor_value_info, buildShapeProto, Option.getD_some]
    constructor
    · intro heq
      by_cases hne : den.length ≠ s.length
      · exact hne
      · rw [if_neg (fun hc => hne hc.2)] at heq
        exact Except.noConfusion heq
    · intro hne
      rw [if_pos ⟨hden, hne⟩]
      rfl
  · simp only [make_sparse_tensor_value_info, buildShapeProto,
      Option.getD_some]
    constructor
    · intro heq
      by_cases hne : den.length ≠ s.length
      · exact hne
      · rw [if_neg (fun hc => hne hc.2)] at heq
        exact Except.noConfusion heq
    · intro hne
      rw [if_pos ⟨hden, hne⟩]
      rfl
  · intro hlen v hv
    simp only [make_tensor_value_info, buildShapeProto, Option.getD_some] at hv
    rw [if_neg (fun hc => hc.2 hlen)] at hv
    have hok := Except.ok.inj hv
    subst hok
    have hd : (List.map (fun p => mkDim den p.1 p.2) s.enum).map
        (fun d => d.denotation) = den := by
      rw [List.map_map]
      have hfun : ((fun d : Dimension => d.denotation) ∘
          fun p : Nat × ShapeEntry => mkDim den p.1 p.2) =
          fun p : Nat × ShapeEntry => den.getD p.1 "" := by
        funext p
        simp [mkDim, hden]
      rw [hfun]
      exact enum_getD_eq s den hlen
    exact congrArg some hd
  · intro hlen v hv
    simp only [make_sparse_tensor_value_info, buildShapeProto,
      Option.getD_some] at hv
    rw [if_neg (fun hc => hc.2 hlen)] at hv
    have hok := Except.ok.inj hv
    subst hok
    have hd : (List.map (fun p => mkDim den p.1 p.2) s.enum).map
        (fun d => d.denotation) = den := by
      rw [List.map_map]
      have hfun : ((fun d : Dimension => d.denotation) ∘
          fun p : Nat × ShapeEntry => mkDim den p.1 p.2) =
          fun p : Nat × ShapeEntry => den.getD p.1 "" := by
        funext p
        simp [mkDim, hden]
      rw [hfun]
      exact enum_getD_eq s den hlen
    exact congrArg some hd

/-- Witness for C9's amended statement: a 2-denotation list against a
length-1 shape fails, a matching 1-denotation list attaches positionally. -/
theorem c9_witness :
    make_tensor_value_info "x" 1 (some [some (Sum.inl 2)]) ""
      (some ["a", "b"]) = .error .denotationLengthMismatch ∧
    valueInfoDenotations { name := "x", doc_string := "", type := { value := some (.tensorType { elem_type := 1, shape := some { dim := [{ value := some (Sum.inl 2), denotation := "batch" }] } }) } } = some ["batch"] := by
  constructor
  · exact (c9_denotation_length "x" 1 "" [some (Sum.inl 2)] ["a", "b"]
      (by simp)).1.mpr (by decide)
  · exact (c9_denotation_length "x" 1 "" [some (Sum.inl 2)] ["batch"]
      (by simp)).2.2.1 rfl _ rfl


theorem joinSep_cons (sep x : String) (xs : List String) :
    joinSep sep (x :: xs) = x ++ strConcat (xs.map fun y => sep ++ y) := by
  induction xs generalizing x with
  | nil =>
      apply String.ext
      simp [joinSep, strConcat, String.data_append]
  | cons y ys ih =>
      rw [show joinSep sep (x :: y :: ys) = x ++ sep ++ joinSep sep (y :: ys)
        from rfl]
      rw [ih y]
      apply String.ext
      simp [strConcat, String.data_append]

theorem joinSep_append (sep : String) (xs ys : List String) (h : xs ≠ []) :
    joinSep sep (xs ++ ys) =
      joinSep sep xs ++ strConcat (ys.map fun y => sep ++ y) := by
  induction xs with
  | nil => exact absurd rfl h
  | cons x xs ih =>
      cases xs with
      | nil =>
          rw [List.singleton_append, joinSep_cons]
          rfl
      | cons x' xs' =>
          have h' : (x' :: xs') ≠ [] := by simp
          have hstep : joinSep sep ((x :: x' :: xs') ++ ys) =
              x ++ sep ++ joinSep sep ((x' :: xs') ++ ys) := rfl
          rw [hstep, ih h']
          rw [show joinSep sep (x :: x' :: xs') =
            x ++ sep ++ joinSep sep (x' :: xs') from rfl]
          apply String.ext
          simp [String.data_append]

theorem graphBodyLines_ne_nil (g : GraphProto) (pfx : String) :
    graphBodyLines g pfx ≠ [] := by
  simp [graphBodyLines]

/-- C10: a graph-valued attribute renders inline only as the
`<graph NAME>` placeholder while surfacing its graph; `printable_graph`
produces its body block — whose last line is the closing brace — followed,
for each surfaced subgraph in surfaced order, by a blank line and that
subgraph's own complete `printable_graph` rendering (the same equation
applying recursively to it); and the surfaced list is exactly the
attribute-surfaced graphs in node order, never inlined into the node
line. -/
theorem c10_printable_graph_layout :
    (∀ (a : AttributeProto) (sg : GraphProto),
      a.f = none → a.i = none → a.s = none → a.t = none → a.g = some sg →
      (printable_attribute a).1 = a.name ++ " = <graph " ++ sg.name ++ ">" ∧
      (printable_attribute a).2 = [sg]) ∧
    (∀ (g : GraphProto) (pfx : String),
      printable_graph g pfx =
        joinSep "\n" (graphBodyLines g pfx) ++
          strConcat ((graphSurfaced g).map
            fun sg => "\n\n" ++ printable_graph sg "")) ∧
    (∀ (g : GraphProto) (pfx : String),
      (graphBodyLines g pfx).getLast? = some (pfx ++ "\x7d")) ∧
    (∀ g : GraphProto, graphSurfaced g =
      g.node.flatMap fun n => n.attrs.flatMap
        fun a => (printable_attribute a).2) := by
  refine ⟨?_, ?_, ?_, ?_⟩
  · intro a sg hf hi hs ht hg
    obtain ⟨nm, ds, ty, f, i, s, t, sp, gOpt, fl, ins, st, te, spt, gr⟩ := a
    simp only [AttributeProto.f] at hf
    simp only [AttributeProto.i] at hi
    simp only [AttributeProto.s] at hs
    simp only [AttributeProto.t] at ht
    simp only [AttributeProto.g] at hg
    subst hf hi hs ht hg
    constructor
    · simp only [printable_attribute, printable_attribute_core,
        AttributeProto.name, AttributeProto.f, AttributeProto.i,
        AttributeProto.s, AttributeProto.t, AttributeProto.g,
        Option.isSome_none, Option.isSome_some, Option.getD_some,
        Bool.false_eq_true, if_false, if_true, GraphProto.name]
      apply String.ext
      simp [joinSep, String.data_append]
    · simp [printable_attribute, printable_attribute_core,
        AttributeProto.f, AttributeProto.i, AttributeProto.s,
        AttributeProto.t, AttributeProto.g]
  · intro g pfx
    rw [printable_graph]
    rw [show ((graphSurfaced g).attach.map
        fun sg => "\n" ++ printable_graph sg.1 "") =
        (graphSurfaced g).map fun sg => "\n" ++ printable_graph sg "" from
      List.attach_map_coe (graphSurfaced g)
        (fun x => "\n" ++ printable_graph x "")]
    rw [joinSep_append "\n" _ _ (graphBodyLines_ne_nil g pfx)]
    rw [List.map_map]
    have hfun : ((fun y => "\n" ++ y) ∘
        fun sg => "\n" ++ printable_graph sg "") =
        fun sg : GraphProto => "\n\n" ++ printable_graph sg "" := by
      funext sg
      apply String.ext
      simp [Function.comp, String.data_append]
    rw [hfun]
  · intro g pfx
    simp only [graphBodyLines]
    rw [List.getLast?_append, List.getLast?_append]
    rfl
  · intro g
    unfold graphSurfaced
    congr 1
    funext n
    rw [show (printable_node n "").2 =
        (n.attrs.map printable_attribute).flatMap Prod.snd from rfl]
    rw [List.flatMap_map]

/-- Witness for C10: a GRAPH attribute named `body` holding the graph
`inner` prints as `body = <graph inner>` and surfaces exactly that
graph. -/
theorem c10_witness :
    (printable_attribute (.mk "body" "" .GRAPH none none none none none
      (some (.mk "inner" [] [] [] [] [] [] "")) [] [] [] [] [] [])).1 =
      "body" ++ " = <graph " ++ "inner" ++ ">" ∧
    (printable_attribute (.mk "body" "" .GRAPH none none none none none
      (some (.mk "inner" [] [] [] [] [] [] "")) [] [] [] [] [] [])).2 =
      [.mk "inner" [] [] [] [] [] [] ""] :=
  c10_printable_graph_layout.1
    (.mk "body" "" .GRAPH none none none none none
      (some (.mk "inner" [] [] [] [] [] [] "")) [] [] [] [] [] [])
    (.mk "inner" [] [] [] [] [] [] "") rfl rfl rfl rfl rfl
